import Mathlib

set_option maxRecDepth 8192

/-!
Verification of the connection-pool cache of `SQLDbService`
(src/src/core/database/sqlDatabaseService.ts).

The cache `dataSourceCache` is a JS object mapping string keys to entries;
we embed it as an insertion-ordered association list, matching JS object
key iteration order.  A `DataSource.destroy()` call is external I/O that
may throw; each entry carries a `closeFails` flag saying whether its
destroy call throws.  Connection initialization (`DataSource.initialize()`)
is likewise external; `getDataSource` takes an `initOk` flag for it, and
physical connection creation is counted by the `nextHandle` counter.
-/

namespace DbResolver

/-- One value of `dataSourceCache`: the `dataSource` handle plus metadata
(`createdAt`, `lastUsed`, `connectionsOpened`, `queriesExecuted`), and the
external fact of whether destroying this handle throws. -/
structure Entry where
  handle : Nat
  createdAt : Nat
  lastUsed : Nat
  connectionsOpened : Nat
  queriesExecuted : Nat
  closeFails : Bool
deriving Repr, DecidableEq

/-- The cache `dataSourceCache`, as an insertion-ordered association list. -/
abbrev Cache := List (String × Entry)

/-- JS property read `cache[key]`. -/
def lookupC : Cache → String → Option Entry
  | [], _ => none
  | (k, e) :: t, key => if k = key then some e else lookupC t key

/-- JS property write `cache[key] = v`: update in place if present,
else append (JS objects keep insertion order). -/
def setEntry : Cache → String → Entry → Cache
  | [], key, v => [(key, v)]
  | (k, e) :: t, key, v => if k = key then (key, v) :: t else (k, e) :: setEntry t key v

/-- JS `delete cache[key]`. -/
def eraseKey (c : Cache) (key : String) : Cache :=
  c.filter (fun p => p.1 != key)

/-- JS `s.endsWith(suffix)`. -/
def endsWithS (s suffix : String) : Bool := suffix.data.isSuffixOf s.data

/-- Constant `MAX_CACHE_SIZE = 20`. -/
def MAX_CACHE_SIZE : Nat := 20

/-- Constant `CACHE_TTL = 10 * 60 * 1000` ms. -/
def CACHE_TTL : Nat := 10 * 60 * 1000

/-- Constant `CLEANUP_INTERVAL = 60 * 60 * 1000` ms. -/
def CLEANUP_INTERVAL : Nat := 60 * 60 * 1000

/-- The external call `await cache[key].dataSource.destroy()`: throws iff `closeFails`. -/
def destroyHandle (e : Entry) : Except String Unit :=
  if e.closeFails then Except.error "destroy failed" else Except.ok ()

/-- One iteration of the removal loops in `cleanupOldConnections` /
`enforceMaxCacheSize`: `try { await destroy(); delete cache[key] } catch {}` —
on a destroy failure the `delete` is skipped. -/
def destroyAndRemove (c : Cache) (k : String) : Cache :=
  match lookupC c k with
  | some e =>
      match destroyHandle e with
      | Except.ok _ => eraseKey c k
      | Except.error _ => c
  | none => c

/-- The removal loop over `keysToRemove`. -/
def removeKeys (c : Cache) (ks : List String) : Cache :=
  ks.foldl destroyAndRemove c

/-- The keys collected by the scan loop of `cleanupOldConnections`:
non-base keys (`!key.endsWith('_default')`) whose idle time
`now - lastUsed` strictly exceeds `CACHE_TTL`. -/
def idleKeys (c : Cache) (now : Nat) : List String :=
  (c.filter (fun p => !(endsWithS p.1 "_default") && decide (CACHE_TTL < now - p.2.lastUsed))).map Prod.fst

/-- Function `cleanupOldConnections` (the idle reaper body, also called by
`manualCleanup`): collect idle non-base keys, then destroy-and-remove each.
Returns the new cache and the collected `keysToRemove`. -/
def cleanupOldConnections (c : Cache) (now : Nat) : Cache × List String :=
  let ks := idleKeys c now
  (removeKeys c ks, ks)

/-- Stable insertion step for the JS stable `sort((a,b) => lastUsed[a] - lastUsed[b])`. -/
def insLU (a : String × Entry) : List (String × Entry) → List (String × Entry)
  | [] => [a]
  | b :: t => if a.2.lastUsed ≤ b.2.lastUsed then a :: b :: t else b :: insLU a t

/-- Stable sort by ascending `lastUsed`. -/
def sortLU : List (String × Entry) → List (String × Entry)
  | [] => []
  | a :: t => insLU a (sortLU t)

/-- Function `enforceMaxCacheSize`: returns early when `keys.length <= MAX_CACHE_SIZE`;
otherwise sorts the non-base keys by ascending `lastUsed`, takes the first
`keys.length - MAX_CACHE_SIZE` of them, and destroy-and-removes each. -/
def enforceMaxCacheSize (c : Cache) : Cache :=
  if c.length ≤ MAX_CACHE_SIZE then c
  else
    removeKeys c
      (((sortLU (c.filter (fun p => !(endsWithS p.1 "_default")))).map Prod.fst).take
        (c.length - MAX_CACHE_SIZE))

/-- JS `s.toLowerCase()` (ASCII case mapping), written over the char list so
that it is kernel-reducible. -/
def toLowerS (s : String) : String := ⟨s.data.map Char.toLower⟩

/-- The cache-hit refresh: `lastUsed = now; queriesExecuted++`. -/
def touch (e : Entry) (now : Nat) : Entry :=
  { e with lastUsed := now, queriesExecuted := e.queriesExecuted + 1 }

/-- JS truthiness of the optional `dbName` argument (the empty string is falsy). -/
def jsTruthy : Option String → Bool
  | none => false
  | some d => d ≠ ""

/-- The ConnectionKey: `` `${dbType.toLowerCase()}_${dbName || 'default'}` ``. -/
def keyOf (dbType : String) (dbName : Option String) : String :=
  toLowerS dbType ++ "_" ++ (match dbName with
    | none => "default"
    | some d => if d = "" then "default" else d)

/-- The entry stored for a freshly initialized connection. -/
def mkFreshEntry (h now : Nat) : Entry :=
  { handle := h, createdAt := now, lastUsed := now
    connectionsOpened := 1, queriesExecuted := 0, closeFails := false }

/-- Outcome of a `getDataSource` call. -/
inductive AcquireResult where
  | hit (handle : Nat)
  | created (handle : Nat)
  | base (handle : Nat)
  | errUnsupported (msg : String)
  | errInit (msg : String)
deriving Repr, DecidableEq

/-- The handle of the injected `postgresDataSource` base connection. -/
def basePostgresHandle : Nat := 0

/-- Service state: the cache plus a counter of physical connections created
(`nextHandle` doubles as the next fresh handle id). -/
structure SvcState where
  cache : Cache
  nextHandle : Nat
deriving Repr, DecidableEq

/-- Function `getDataSource(dbType, dbName?)`.  On a hit, bump `lastUsed` and
`queriesExecuted` and return the cached handle.  On a miss: unsupported
engines throw before any mutation; with a truthy `dbName`,
`enforceMaxCacheSize` runs first, then the connection is initialized
(`initOk` says whether `initialize()` succeeds) and the entry is inserted
only on success — on failure the error propagates with only the
enforcement's evictions persisted; with no (or falsy) `dbName`, the base
connection is registered under the `_default` key. -/
def getDataSource (st : SvcState) (now : Nat) (dbType : String)
    (dbName : Option String) (initOk : Bool) : AcquireResult × SvcState :=
  let key := keyOf dbType dbName
  match lookupC st.cache key with
  | some e =>
      (AcquireResult.hit e.handle, { st with cache := setEntry st.cache key (touch e now) })
  | none =>
      if toLowerS dbType = "postgres" then
        if jsTruthy dbName then
          let cache1 := enforceMaxCacheSize st.cache
          if initOk then
            let h := st.nextHandle
            (AcquireResult.created h,
              { cache := setEntry cache1 key (mkFreshEntry h now), nextHandle := h + 1 })
          else
            (AcquireResult.errInit "connection initialization failed",
              { st with cache := cache1 })
        else
          let baseEntry : Entry :=
            { handle := basePostgresHandle, createdAt := now, lastUsed := now
              connectionsOpened := 1, queriesExecuted := 0, closeFails := false }
          (AcquireResult.base basePostgresHandle,
            { st with cache := setEntry st.cache key baseEntry })
      else
        (AcquireResult.errUnsupported ("Unsupported database type: " ++ dbType), st)

/-- The loop body of `onModuleDestroy`: each entry's destroy is attempted
inside its own `try`/`catch`, so a failure is recorded and the loop
continues.  Returns, per key, whether the close succeeded. -/
def shutdownLoop : Cache → List (String × Bool)
  | [] => []
  | p :: t =>
      (match destroyHandle p.2 with
        | Except.ok _ => (p.1, true)
        | Except.error _ => (p.1, false)) :: shutdownLoop t

/-- Function `onModuleDestroy` (shutdown): iterates over every cached entry,
attempting to close each handle; no entry is ever deleted from the map. -/
def onModuleDestroy (c : Cache) : Cache × List (String × Bool) :=
  (c, shutdownLoop c)

/-- JS `hay.includes(needle)` over char lists. -/
def substrAux (needle : List Char) : List Char → Bool
  | [] => needle.isEmpty
  | c :: t => needle.isPrefixOf (c :: t) || substrAux needle t

/-- JS `hay.includes(needle)`. -/
def hasSubstr (hay needle : String) : Bool := substrAux needle.data hay.data

/-- Function `createDatabase(dbType, dbName)`: unsupported engines throw; otherwise
the existence check runs on the base connection (`dbExists` is its result);
if the database exists the call returns an "already exists" message; else
the create statement runs (`createRes` is its outcome): success returns a
success message, and an error is answered with "already exists" when its
message contains that phrase, otherwise rethrown wrapped. -/
def createDatabase (dbType dbName : String) (dbExists : Bool)
    (createRes : Except String Unit) : Except String String :=
  if toLowerS dbType = "postgres" then
    if dbExists then
      Except.ok ("Database \"" ++ dbName ++ "\" already exists")
    else
      match createRes with
      | Except.ok _ => Except.ok ("Database " ++ dbName ++ " created successfully!")
      | Except.error msg =>
          if hasSubstr msg "already exists" then
            Except.ok ("Database " ++ dbName ++ " already exists")
          else
            Except.error ("Error creating database: " ++ msg)
  else
    Except.error ("Unsupported database type: " ++ dbType)

/-! Interleaving model for two concurrent `getDataSource(postgres, d)` calls
on the same key.  The JS miss path suspends (`await enforceMaxCacheSize()`,
`await newDataSource.initialize()`) between the cache-presence check and the
cache insertion, so another caller can run in between.  Each call is split
at that suspension point into two atomic phases: the check (hit, or record
a miss), and the initialize-and-insert. -/

/-- Program counter of one in-flight `getDataSource` call. -/
inductive PC where
  | start
  | missed
  | done
deriving Repr, DecidableEq

/-- Global state for two interleaved `getDataSource` calls on one key. -/
structure CState where
  cache : Cache
  nextHandle : Nat
  pc1 : PC
  pc2 : PC
  res1 : Option AcquireResult
  res2 : Option AcquireResult
deriving Repr, DecidableEq

/-- One phase of thread 1's call. -/
def phase1 (key : String) (now : Nat) (s : CState) : CState :=
  match s.pc1 with
  | PC.start =>
      match lookupC s.cache key with
      | some e =>
          { s with cache := setEntry s.cache key (touch e now), pc1 := PC.done
                   res1 := some (AcquireResult.hit e.handle) }
      | none => { s with pc1 := PC.missed }
  | PC.missed =>
      let c1 := enforceMaxCacheSize s.cache
      { s with cache := setEntry c1 key (mkFreshEntry s.nextHandle now)
               nextHandle := s.nextHandle + 1, pc1 := PC.done
               res1 := some (AcquireResult.created s.nextHandle) }
  | PC.done => s

/-- One phase of thread 2's call. -/
def phase2 (key : String) (now : Nat) (s : CState) : CState :=
  match s.pc2 with
  | PC.start =>
      match lookupC s.cache key with
      | some e =>
          { s with cache := setEntry s.cache key (touch e now), pc2 := PC.done
                   res2 := some (AcquireResult.hit e.handle) }
      | none => { s with pc2 := PC.missed }
  | PC.missed =>
      let c1 := enforceMaxCacheSize s.cache
      { s with cache := setEntry c1 key (mkFreshEntry s.nextHandle now)
               nextHandle := s.nextHandle + 1, pc2 := PC.done
               res2 := some (AcquireResult.created s.nextHandle) }
  | PC.done => s

/-- Step under a schedule entry: `true` runs thread 1, `false` thread 2. -/
def concStep (key : String) (now : Nat) (s : CState) (t : Bool) : CState :=
  if t then phase1 key now s else phase2 key now s

/-- Run a schedule of thread choices. -/
def concRun (key : String) (now : Nat) (sched : List Bool) (s : CState) : CState :=
  sched.foldl (concStep key now) s

/-- Initial state for two pending calls over a starting cache. -/
def concInit (c : Cache) (n : Nat) : CState :=
  { cache := c, nextHandle := n, pc1 := PC.start, pc2 := PC.start
    res1 := none, res2 := none }

/-! Helper lemmas about the cache primitives -/

theorem lookup_eraseKey_self (c : Cache) (k : String) :
    lookupC (eraseKey c k) k = none := by
  induction c with
  | nil => rfl
  | cons p t ih =>
      unfold eraseKey at *
      by_cases h : p.1 = k
      · simp [List.filter, h, ih]
      · simp only [List.filter]
        have hb : (p.1 != k) = true := by simpa using h
        rw [hb]
        simpa [lookupC, h] using ih

theorem lookup_eraseKey_ne (c : Cache) {k k' : String} (h : k ≠ k') :
    lookupC (eraseKey c k') k = lookupC c k := by
  induction c with
  | nil => rfl
  | cons p t ih =>
      unfold eraseKey at *
      by_cases hp : p.1 = k'
      · simp only [List.filter]
        have hb : (p.1 != k') = false := by simpa using hp
        rw [hb]
        have hpk : p.1 ≠ k := fun hh => h (hh ▸ hp ▸ rfl)
        rw [ih]
        rcases p with ⟨pk, pe⟩
        simp [lookupC, hpk]
      · simp only [List.filter]
        have hb : (p.1 != k') = true := by simpa using hp
        rw [hb]
        rcases p with ⟨pk, pe⟩
        by_cases hpk : pk = k
        · simp [lookupC, hpk]
        · simp [lookupC, hpk, ih]

theorem mem_of_lookupC {c : Cache} {k : String} {e : Entry}
    (h : lookupC c k = some e) : (k, e) ∈ c := by
  induction c with
  | nil => simp [lookupC] at h
  | cons p t ih =>
      rcases p with ⟨pk, pe⟩
      by_cases hp : pk = k
      · simp [lookupC, hp] at h
        subst hp
        simp [h]
      · simp [lookupC, hp] at h
        exact List.mem_cons_of_mem _ (ih h)

theorem lookupC_none_of_not_mem {c : Cache} {k : String}
    (h : ∀ e : Entry, (k, e) ∉ c) : lookupC c k = none := by
  induction c with
  | nil => rfl
  | cons p t ih =>
      rcases p with ⟨pk, pe⟩
      by_cases hp : pk = k
      · subst hp
        exact absurd (List.mem_cons_self _ _) (h pe)
      · simp only [lookupC, hp, if_false]
        exact ih (fun e he => h e (List.mem_cons_of_mem _ he))

theorem lookup_setEntry_self (c : Cache) (k : String) (v : Entry) :
    lookupC (setEntry c k v) k = some v := by
  induction c with
  | nil => simp [setEntry, lookupC]
  | cons p t ih =>
      rcases p with ⟨pk, pe⟩
      by_cases hp : pk = k
      · simp [setEntry, hp, lookupC]
      · simp [setEntry, hp, lookupC, ih]

theorem mem_destroyAndRemove {c : Cache} {k : String} {p : String × Entry}
    (h : p ∈ destroyAndRemove c k) : p ∈ c := by
  unfold destroyAndRemove at h
  split at h
  · split at h
    · exact List.mem_of_mem_filter h
    · exact h
  · exact h

theorem destroyAndRemove_lookup_ne (c : Cache) {k k' : String} (h : k ≠ k') :
    lookupC (destroyAndRemove c k') k = lookupC c k := by
  unfold destroyAndRemove
  split
  · split
    · exact lookup_eraseKey_ne c h
    · rfl
  · rfl

theorem removeKeys_lookup_not_mem {ks : List String} {c : Cache} {k : String}
    (h : k ∉ ks) : lookupC (removeKeys c ks) k = lookupC c k := by
  induction ks generalizing c with
  | nil => rfl
  | cons k' t ih =>
      have hne : k ≠ k' := fun hh => h (hh ▸ List.mem_cons_self _ _)
      have ht : k ∉ t := fun hh => h (List.mem_cons_of_mem _ hh)
      show lookupC (removeKeys (destroyAndRemove c k') t) k = lookupC c k
      rw [ih ht, destroyAndRemove_lookup_ne c hne]

theorem mem_removeKeys {ks : List String} {c : Cache} {p : String × Entry}
    (h : p ∈ removeKeys c ks) : p ∈ c := by
  induction ks generalizing c with
  | nil => exact h
  | cons k' t ih =>
      exact mem_destroyAndRemove (ih h)

theorem lookupC_isSome_of_mem {c : Cache} {k : String} {e : Entry}
    (h : (k, e) ∈ c) : lookupC c k ≠ none := by
  induction c with
  | nil => simp at h
  | cons p t ih =>
      rcases p with ⟨pk, pe⟩
      by_cases hp : pk = k
      · simp [lookupC, hp]
      · simp only [lookupC, hp, if_false]
        rcases List.mem_cons.mp h with h1 | h1
        · exact absurd (congrArg Prod.fst h1).symm hp
        · exact ih h1

theorem removeKeys_lookup_none {ks : List String} {c : Cache} {k : String}
    (h : lookupC c k = none) : lookupC (removeKeys c ks) k = none := by
  rcases hl : lookupC (removeKeys c ks) k with _ | e
  · rfl
  · exact absurd h (lookupC_isSome_of_mem (mem_removeKeys (mem_of_lookupC hl)))

theorem removeKeys_lookup_mem_none {ks : List String} {c : Cache} {k : String}
    (hclose : ∀ p ∈ c, p.2.closeFails = false) (hk : k ∈ ks) :
    lookupC (removeKeys c ks) k = none := by
  induction ks generalizing c with
  | nil => simp at hk
  | cons k' t ih =>
      show lookupC (removeKeys (destroyAndRemove c k') t) k = none
      have hclose' : ∀ p ∈ destroyAndRemove c k', p.2.closeFails = false :=
        fun p hp => hclose p (mem_destroyAndRemove hp)
      by_cases hkk : k = k'
      · subst hkk
        have hnone : lookupC (destroyAndRemove c k) k = none := by
          unfold destroyAndRemove
          rcases hl : lookupC c k with _ | e
          · simp only [hl]
          · have hcf : e.closeFails = false := hclose (k, e) (mem_of_lookupC hl)
            simp only [hl, destroyHandle, hcf]
            simp [lookup_eraseKey_self]
        exact removeKeys_lookup_none hnone
      · rcases List.mem_cons.mp hk with h1 | h1
        · exact absurd h1 hkk
        · exact ih hclose' h1

theorem mem_insLU {a x : String × Entry} {l : List (String × Entry)} :
    x ∈ insLU a l ↔ x = a ∨ x ∈ l := by
  induction l with
  | nil => simp [insLU]
  | cons b t ih =>
      unfold insLU
      by_cases h : a.2.lastUsed ≤ b.2.lastUsed
      · rw [if_pos h]
        simp only [List.mem_cons]
      · rw [if_neg h]
        simp only [List.mem_cons, ih]
        tauto

theorem mem_sortLU {x : String × Entry} {l : List (String × Entry)} :
    x ∈ sortLU l ↔ x ∈ l := by
  induction l with
  | nil => simp [sortLU]
  | cons a t ih =>
      simp [sortLU, mem_insLU, ih, List.mem_cons]

theorem sortLU_min {l : List (String × Entry)} (h : l ≠ []) :
    ∃ y ys, sortLU l = y :: ys ∧ y ∈ l ∧ ∀ x ∈ l, y.2.lastUsed ≤ x.2.lastUsed := by
  induction l with
  | nil => exact absurd rfl h
  | cons a t ih =>
      by_cases ht : t = []
      · subst ht
        exact ⟨a, [], by simp [sortLU, insLU], by simp, by simp⟩
      · obtain ⟨y, ys, hs, hy, hmin⟩ := ih ht
        unfold sortLU
        rw [hs]
        unfold insLU
        by_cases hc : a.2.lastUsed ≤ y.2.lastUsed
        · rw [if_pos hc]
          refine ⟨a, y :: ys, rfl, List.mem_cons_self _ _, ?_⟩
          intro x hx
          rcases List.mem_cons.mp hx with h1 | h1
          · exact h1 ▸ le_refl _
          · exact le_trans hc (hmin x h1)
        · rw [if_neg hc]
          refine ⟨y, insLU a ys, rfl, List.mem_cons_of_mem _ hy, ?_⟩
          intro x hx
          rcases List.mem_cons.mp hx with h1 | h1
          · exact h1 ▸ le_of_not_le hc
          · exact hmin x h1

theorem lookup_of_mem_nodup {c : Cache} {k : String} {e : Entry}
    (hnd : (c.map Prod.fst).Nodup) (hm : (k, e) ∈ c) : lookupC c k = some e := by
  induction c with
  | nil => simp at hm
  | cons p t ih =>
      rcases p with ⟨pk, pe⟩
      rw [List.map_cons, List.nodup_cons] at hnd
      by_cases hp : pk = k
      · subst hp
        rcases List.mem_cons.mp hm with h1 | h1
        · have he : e = pe := (Prod.ext_iff.mp h1).2
          rw [he]
          simp [lookupC]
        · exact absurd (List.mem_map.mpr ⟨(pk, e), h1, rfl⟩) hnd.1
      · simp only [lookupC, hp, if_false]
        rcases List.mem_cons.mp hm with h1 | h1
        · exact absurd (congrArg Prod.fst h1).symm hp
        · exact ih hnd.2 h1

theorem not_mem_idleKeys_of_base {c : Cache} {now : Nat} {k : String}
    (hb : endsWithS k "_default" = true) : k ∉ idleKeys c now := by
  intro hk
  unfold idleKeys at hk
  obtain ⟨p, hp, hpk⟩ := List.mem_map.mp hk
  have hpred := (List.mem_filter.mp hp).2
  rw [hpk] at hpred
  simp [hb] at hpred

theorem cleanup_lookup_base {c : Cache} {now : Nat} {k : String}
    (hb : endsWithS k "_default" = true) :
    lookupC (cleanupOldConnections c now).1 k = lookupC c k := by
  unfold cleanupOldConnections
  exact removeKeys_lookup_not_mem (not_mem_idleKeys_of_base hb)

theorem enforce_lookup_base {c : Cache} {k : String}
    (hb : endsWithS k "_default" = true) :
    lookupC (enforceMaxCacheSize c) k = lookupC c k := by
  unfold enforceMaxCacheSize
  split
  · rfl
  · apply removeKeys_lookup_not_mem
    intro hk
    have hk' := List.mem_of_mem_take hk
    obtain ⟨p, hp, hpk⟩ := List.mem_map.mp hk'
    have hpred := (List.mem_filter.mp (mem_sortLU.mp hp)).2
    rw [hpk] at hpred
    simp [hb] at hpred

theorem enforce_lookup_none {c : Cache} {k : String}
    (h : lookupC c k = none) : lookupC (enforceMaxCacheSize c) k = none := by
  unfold enforceMaxCacheSize
  split
  · exact h
  · exact removeKeys_lookup_none h

theorem endsWithS_concat (x : String) :
    endsWithS (x ++ "_" ++ "default") "_default" = true := by
  unfold endsWithS
  rw [String.data_append, String.data_append]
  apply List.isSuffixOf_iff_suffix.mpr
  have hd : "_default".data = "_".data ++ "default".data := by decide
  rw [hd, List.append_assoc]
  exact List.suffix_append _ _

theorem shutdownLoop_eq_map (c : Cache) :
    shutdownLoop c = c.map (fun p => (p.1, !p.2.closeFails)) := by
  induction c with
  | nil => rfl
  | cons p t ih =>
      unfold shutdownLoop destroyHandle
      by_cases hp : p.2.closeFails
      · simp [hp, ih]
      · simp [hp, ih]

/-! Claim theorems -/

/-- C3: base entries (entries whose key carries the `_default` suffix used
for an engine with no explicit database name) are never removed by the idle
reaper `cleanupOldConnections` nor by `enforceMaxCacheSize`, for any cache
state and any idle time: the base entry is looked up unchanged afterwards. -/
theorem c3_base_entries_never_evicted (c : Cache) (now : Nat) (k : String) (e : Entry)
    (hbase : endsWithS k "_default" = true) (hmem : lookupC c k = some e) :
    lookupC (cleanupOldConnections c now).1 k = some e ∧
    lookupC (enforceMaxCacheSize c) k = some e :=
  ⟨(cleanup_lookup_base hbase).trans hmem, (enforce_lookup_base hbase).trans hmem⟩

/-- Witness for C3 at a concrete base entry that has been idle far past the
TTL: it survives both the reaper and capacity enforcement. -/
theorem c3_base_entries_never_evicted_witness :
    lookupC (cleanupOldConnections [("postgres_default", (⟨0, 0, 0, 1, 0, false⟩ : Entry))] 99999999).1
        "postgres_default" = some (⟨0, 0, 0, 1, 0, false⟩ : Entry) ∧
    lookupC (enforceMaxCacheSize [("postgres_default", (⟨0, 0, 0, 1, 0, false⟩ : Entry))])
        "postgres_default" = some (⟨0, 0, 0, 1, 0, false⟩ : Entry) :=
  c3_base_entries_never_evicted _ 99999999 _ _ (by decide) (by decide)

/-- C10: for every engine, an acquire with the explicit database name
`"default"` computes the same ConnectionKey as the base acquire with no
database name; that key ends in `_default`, so an entry cached under it is
exempt from both idle eviction and capacity eviction. -/
theorem c10_default_name_collides_with_base (dbType : String) (c : Cache) (now : Nat) (e : Entry)
    (hmem : lookupC c (keyOf dbType (some "default")) = some e) :
    keyOf dbType (some "default") = keyOf dbType none ∧
    endsWithS (keyOf dbType (some "default")) "_default" = true ∧
    lookupC (cleanupOldConnections c now).1 (keyOf dbType (some "default")) = some e ∧
    lookupC (enforceMaxCacheSize c) (keyOf dbType (some "default")) = some e := by
  have hkey : keyOf dbType (some "default") = toLowerS dbType ++ "_" ++ "default" := by
    simp [keyOf]
  have hb : endsWithS (keyOf dbType (some "default")) "_default" = true := by
    rw [hkey]
    exact endsWithS_concat _
  exact ⟨by simp [keyOf], hb,
    (cleanup_lookup_base hb).trans hmem, (enforce_lookup_base hb).trans hmem⟩

/-- Witness for C10: a tenant entry literally named `default` sits in the
base slot `postgres_default` and survives reaping and capacity eviction. -/
theorem c10_default_name_collides_with_base_witness :
    keyOf "postgres" (some "default") = keyOf "postgres" none ∧
    endsWithS (keyOf "postgres" (some "default")) "_default" = true ∧
    lookupC (cleanupOldConnections [("postgres_default", (⟨7, 1, 1, 1, 0, false⟩ : Entry))] 88888888).1
        (keyOf "postgres" (some "default")) = some (⟨7, 1, 1, 1, 0, false⟩ : Entry) ∧
    lookupC (enforceMaxCacheSize [("postgres_default", (⟨7, 1, 1, 1, 0, false⟩ : Entry))])
        (keyOf "postgres" (some "default")) = some (⟨7, 1, 1, 1, 0, false⟩ : Entry) :=
  c10_default_name_collides_with_base "postgres" _ 88888888 _ (by decide)

/-- C5: a `getDataSource` call whose key is present in the cache updates
that entry's `lastUsed` to the current time (and bumps `queriesExecuted`),
returns the cached handle, and creates no new physical connection
(`nextHandle` is unchanged); the updated entry is found under the same key
afterwards. -/
theorem c5_cache_hit_reuses_entry (st : SvcState) (now : Nat) (dbType : String)
    (dbName : Option String) (initOk : Bool) (e : Entry)
    (hhit : lookupC st.cache (keyOf dbType dbName) = some e) :
    getDataSource st now dbType dbName initOk =
      (AcquireResult.hit e.handle,
        { st with cache := setEntry st.cache (keyOf dbType dbName) (touch e now) }) ∧
    lookupC (getDataSource st now dbType dbName initOk).2.cache (keyOf dbType dbName) =
      some (touch e now) ∧
    (getDataSource st now dbType dbName initOk).2.nextHandle = st.nextHandle := by
  have h1 : getDataSource st now dbType dbName initOk =
      (AcquireResult.hit e.handle,
        { st with cache := setEntry st.cache (keyOf dbType dbName) (touch e now) }) := by
    unfold getDataSource
    simp only [hhit]
  exact ⟨h1, by rw [h1]; exact lookup_setEntry_self _ _ _, by rw [h1]⟩

/-- Witness for C5: acquiring `(postgres, tenant1)` twice in succession —
the second call returns the first call's entry with `lastUsed` advanced and
`nextHandle` (the count of physical connections) unchanged. -/
theorem c5_cache_hit_reuses_entry_witness :
    getDataSource (getDataSource ⟨[], 3⟩ 10 "postgres" (some "tenant1") true).2 20
        "postgres" (some "tenant1") true =
      (AcquireResult.hit 3, ⟨[("postgres_tenant1", ⟨3, 10, 20, 1, 1, false⟩)], 4⟩) ∧
    lookupC (getDataSource (getDataSource ⟨[], 3⟩ 10 "postgres" (some "tenant1") true).2 20
        "postgres" (some "tenant1") true).2.cache (keyOf "postgres" (some "tenant1")) =
      some ⟨3, 10, 20, 1, 1, false⟩ ∧
    (getDataSource (getDataSource ⟨[], 3⟩ 10 "postgres" (some "tenant1") true).2 20
        "postgres" (some "tenant1") true).2.nextHandle =
      (getDataSource ⟨[], 3⟩ 10 "postgres" (some "tenant1") true).2.nextHandle :=
  c5_cache_hit_reuses_entry (getDataSource ⟨[], 3⟩ 10 "postgres" (some "tenant1") true).2
    20 "postgres" (some "tenant1") true (⟨3, 10, 10, 1, 0, false⟩ : Entry) (by decide)

/-- C6 counterexample: the ConnectionKey is the flat string
`lower(engine) ++ "_" ++ dbName`, so after the supported acquire
`(postgres, "a_b")` inserts key `postgres_a_b`, an acquire with the
unrecognized engine `postgres_a` and name `b` computes the same key, hits
at the cache check before the engine switch is consulted, returns the
cached handle with no error, and mutates the cache — refuting "every
acquire with an unrecognized engine fails with UnsupportedEngine and
leaves the cache unchanged". -/
theorem c6_unrecognized_engine_collision_hit :
    toLowerS "postgres_a" ≠ "postgres" ∧
    keyOf "postgres_a" (some "b") = keyOf "postgres" (some "a_b") ∧
    (getDataSource (getDataSource ⟨[], 0⟩ 1 "postgres" (some "a_b") true).2 2
        "postgres_a" (some "b") true).1 = AcquireResult.hit 0 ∧
    (getDataSource (getDataSource ⟨[], 0⟩ 1 "postgres" (some "a_b") true).2 2
        "postgres_a" (some "b") true).2.cache ≠
      (getDataSource ⟨[], 0⟩ 1 "postgres" (some "a_b") true).2.cache := by
  decide

/-- C6 (amended): an acquire with an unrecognized engine fails with
`Unsupported database type` and leaves the service state completely
unchanged exactly when its computed key is absent from the cache; when the
flat key collides with an entry inserted by a supported-engine acquire,
the call instead hits before the engine switch is consulted — returning
the cached handle with no error and refreshing the entry — regardless of
the engine being unrecognized. -/
theorem c6_unsupported_engine_amended :
    (∀ (st : SvcState) (now : Nat) (dbType : String) (dbName : Option String) (initOk : Bool),
        lookupC st.cache (keyOf dbType dbName) = none →
        toLowerS dbType ≠ "postgres" →
        getDataSource st now dbType dbName initOk =
          (AcquireResult.errUnsupported ("Unsupported database type: " ++ dbType), st)) ∧
    (∀ (st : SvcState) (now : Nat) (dbType : String) (dbName : Option String) (initOk : Bool)
        (e : Entry),
        lookupC st.cache (keyOf dbType dbName) = some e →
        getDataSource st now dbType dbName initOk =
          (AcquireResult.hit e.handle,
            { st with cache := setEntry st.cache (keyOf dbType dbName) (touch e now) })) := by
  constructor
  · intro st now dbType dbName initOk hmiss hbad
    unfold getDataSource
    simp only [hmiss, if_neg hbad]
  · intro st now dbType dbName initOk e hhit
    unfold getDataSource
    simp only [hhit]

/-- Witness for C6 (amended): `acquire("unsupported-engine", "db")` on a
cache without that key fails and changes nothing, while the unrecognized
engine `postgres_a` with name `b` hits the entry cached under
`postgres_a_b` and returns its handle without error. -/
theorem c6_unsupported_engine_amended_witness :
    getDataSource ⟨[("postgres_x", ⟨1, 0, 0, 1, 0, false⟩)], 9⟩ 50 "unsupported-engine"
        (some "db") true =
      (AcquireResult.errUnsupported ("Unsupported database type: " ++ "unsupported-engine"),
        ⟨[("postgres_x", ⟨1, 0, 0, 1, 0, false⟩)], 9⟩) ∧
    getDataSource ⟨[("postgres_a_b", ⟨4, 3, 3, 1, 0, false⟩)], 7⟩ 8 "postgres_a"
        (some "b") true =
      (AcquireResult.hit 4,
        ⟨setEntry [("postgres_a_b", ⟨4, 3, 3, 1, 0, false⟩)] (keyOf "postgres_a" (some "b"))
            (touch ⟨4, 3, 3, 1, 0, false⟩ 8), 7⟩) :=
  ⟨c6_unsupported_engine_amended.1 ⟨[("postgres_x", ⟨1, 0, 0, 1, 0, false⟩)], 9⟩ 50
      "unsupported-engine" (some "db") true (by decide) (by decide),
    c6_unsupported_engine_amended.2 ⟨[("postgres_a_b", ⟨4, 3, 3, 1, 0, false⟩)], 7⟩ 8
      "postgres_a" (some "b") true ⟨4, 3, 3, 1, 0, false⟩ (by decide)⟩

/-- C7: a `getDataSource` miss on a keyed (non-base) acquire whose
connection initialization fails propagates the error, inserts no entry for
the key (the key is still a miss afterwards), and creates no physical
connection; only the capacity enforcement that ran before initialization is
reflected in the cache. -/
theorem c7_init_failure_leaves_miss (st : SvcState) (now : Nat) (dbType d : String)
    (hmiss : lookupC st.cache (keyOf dbType (some d)) = none)
    (hlow : toLowerS dbType = "postgres") (hd : d ≠ "") :
    getDataSource st now dbType (some d) false =
      (AcquireResult.errInit "connection initialization failed",
        { st with cache := enforceMaxCacheSize st.cache }) ∧
    lookupC (getDataSource st now dbType (some d) false).2.cache (keyOf dbType (some d)) = none ∧
    (getDataSource st now dbType (some d) false).2.nextHandle = st.nextHandle := by
  have h1 : getDataSource st now dbType (some d) false =
      (AcquireResult.errInit "connection initialization failed",
        { st with cache := enforceMaxCacheSize st.cache }) := by
    unfold getDataSource
    simp only [hmiss, if_pos hlow, jsTruthy, hd]
    simp [hd]
  exact ⟨h1, by rw [h1]; exact enforce_lookup_none hmiss, by rw [h1]⟩

/-- Witness for C7: a failed initialization for `(postgres, tenantx)` on an
empty cache leaves the key a miss and the connection count unchanged. -/
theorem c7_init_failure_leaves_miss_witness :
    getDataSource ⟨[], 5⟩ 42 "postgres" (some "tenantx") false =
      (AcquireResult.errInit "connection initialization failed",
        ⟨enforceMaxCacheSize [], 5⟩) ∧
    lookupC (getDataSource ⟨[], 5⟩ 42 "postgres" (some "tenantx") false).2.cache
        (keyOf "postgres" (some "tenantx")) = none ∧
    (getDataSource ⟨[], 5⟩ 42 "postgres" (some "tenantx") false).2.nextHandle = 5 :=
  c7_init_failure_leaves_miss ⟨[], 5⟩ 42 "postgres" "tenantx" (by decide) (by decide)
    (by decide)

/-- C4 counterexample: `onModuleDestroy` never deletes entries from
`dataSourceCache`, so after shutdown the cache is NOT empty — here a
one-entry cache still holds its entry after shutdown, refuting
"after shutdown() the cache is empty". -/
theorem c4_shutdown_cache_not_empty :
    (onModuleDestroy [("postgres_default", (⟨0, 0, 0, 1, 0, false⟩ : Entry))]).1 ≠ [] := by
  decide

/-- C4 (amended): `onModuleDestroy` attempts to close every cached handle,
base entries included; a per-entry close failure is caught and the loop
continues over all remaining entries; the method propagates no error and a
second call behaves exactly like the first — but the cache map is not
cleared: every entry is still present after shutdown. -/
theorem c4_shutdown_closes_all_but_keeps_map (c : Cache) :
    (onModuleDestroy c).1 = c ∧
    (onModuleDestroy c).2.length = c.length ∧
    (∀ p ∈ c, (p.1, !p.2.closeFails) ∈ (onModuleDestroy c).2) ∧
    onModuleDestroy (onModuleDestroy c).1 = onModuleDestroy c := by
  refine ⟨rfl, ?_, ?_, rfl⟩
  · simp [onModuleDestroy, shutdownLoop_eq_map]
  · intro p hp
    simp only [onModuleDestroy, shutdownLoop_eq_map]
    exact List.mem_map.mpr ⟨p, hp, rfl⟩

/-- Witness for C4 (amended): a cache where the first entry's close fails —
the second entry's close is still attempted (the loop is not halted) and
both entries remain in the map. -/
theorem c4_shutdown_closes_all_but_keeps_map_witness :
    (onModuleDestroy [("postgres_default", (⟨2, 0, 0, 1, 0, true⟩ : Entry)),
        ("postgres_t", (⟨3, 0, 5, 1, 0, false⟩ : Entry))]).1 =
      [("postgres_default", (⟨2, 0, 0, 1, 0, true⟩ : Entry)),
        ("postgres_t", (⟨3, 0, 5, 1, 0, false⟩ : Entry))] ∧
    ("postgres_t", true) ∈ (onModuleDestroy [("postgres_default", (⟨2, 0, 0, 1, 0, true⟩ : Entry)),
        ("postgres_t", (⟨3, 0, 5, 1, 0, false⟩ : Entry))]).2 :=
  ⟨(c4_shutdown_closes_all_but_keeps_map _).1,
    (c4_shutdown_closes_all_but_keeps_map _).2.2.1
      ("postgres_t", (⟨3, 0, 5, 1, 0, false⟩ : Entry)) (by decide)⟩

/-- C8: `createDatabase` on a recognized engine first consults the
existence check; an existing database yields an "already exists" result
(not an error); an absent database with a successful create yields a
success message; a create error whose message contains "already exists"
also yields the "already exists" result; any other create error is
rethrown wrapped. -/
theorem c8_createDatabase_conflict_policy (dbType dbName msg : String)
    (hlow : toLowerS dbType = "postgres") :
    (∀ r : Except String Unit, createDatabase dbType dbName true r =
        Except.ok ("Database \"" ++ dbName ++ "\" already exists")) ∧
    createDatabase dbType dbName false (Except.ok ()) =
      Except.ok ("Database " ++ dbName ++ " created successfully!") ∧
    (hasSubstr msg "already exists" = true →
      createDatabase dbType dbName false (Except.error msg) =
        Except.ok ("Database " ++ dbName ++ " already exists")) ∧
    (hasSubstr msg "already exists" = false →
      createDatabase dbType dbName false (Except.error msg) =
        Except.error ("Error creating database: " ++ msg)) := by
  refine ⟨fun r => ?_, ?_, fun h => ?_, fun h => ?_⟩ <;>
    simp [createDatabase, hlow, *]

/-- Witness for C8 at concrete inputs, including a create statement losing
an "already exists" race and an unrelated failure being rethrown. -/
theorem c8_createDatabase_conflict_policy_witness :
    createDatabase "Postgres" "tenant1" true (Except.ok ()) =
      Except.ok ("Database \"" ++ "tenant1" ++ "\" already exists") ∧
    createDatabase "Postgres" "tenant1" false (Except.ok ()) =
      Except.ok ("Database " ++ "tenant1" ++ " created successfully!") ∧
    createDatabase "Postgres" "tenant1" false
        (Except.error "database \"tenant1\" already exists") =
      Except.ok ("Database " ++ "tenant1" ++ " already exists") ∧
    createDatabase "Postgres" "tenant1" false (Except.error "network down") =
      Except.error ("Error creating database: " ++ "network down") :=
  ⟨(c8_createDatabase_conflict_policy "Postgres" "tenant1" "x" (by decide)).1 (Except.ok ()),
    (c8_createDatabase_conflict_policy "Postgres" "tenant1" "x" (by decide)).2.1,
    (c8_createDatabase_conflict_policy "Postgres" "tenant1"
      "database \"tenant1\" already exists" (by decide)).2.2.1 (by decide),
    (c8_createDatabase_conflict_policy "Postgres" "tenant1" "network down"
      (by decide)).2.2.2 (by decide)⟩


theorem enforce_eq_of_le {c : Cache} (h : c.length ≤ MAX_CACHE_SIZE) :
    enforceMaxCacheSize c = c := by
  unfold enforceMaxCacheSize
  rw [if_pos h]

theorem getDataSource_miss_create (st : SvcState) (now : Nat) (dbType d : String)
    (hmiss : lookupC st.cache (keyOf dbType (some d)) = none)
    (hlow : toLowerS dbType = "postgres") (hd : d ≠ "") :
    getDataSource st now dbType (some d) true =
      (AcquireResult.created st.nextHandle,
        ⟨setEntry (enforceMaxCacheSize st.cache) (keyOf dbType (some d))
            (mkFreshEntry st.nextHandle now), st.nextHandle + 1⟩) := by
  unfold getDataSource
  simp only [hmiss, if_pos hlow, jsTruthy, hd]
  simp [hd]

/-- C2: with every handle's close succeeding, `cleanupOldConnections`
removes exactly the non-base entries whose idle time `now - lastUsed`
strictly exceeds `CACHE_TTL` (each such key is in the removal list), keeps
every base entry and every entry used within the TTL unchanged, and a
subsequent acquire for an evicted key is a miss that provisions a fresh
physical connection. -/
theorem c2_evictIdle_removes_exactly_idle (c : Cache) (now now2 n : Nat) (dbType d : String)
    (hnd : (c.map Prod.fst).Nodup)
    (hclose : ∀ p ∈ c, p.2.closeFails = false)
    (hlow : toLowerS dbType = "postgres") (hd : d ≠ "") :
    (∀ k e, lookupC c k = some e → endsWithS k "_default" = false →
        CACHE_TTL < now - e.lastUsed →
        lookupC (cleanupOldConnections c now).1 k = none ∧
        k ∈ (cleanupOldConnections c now).2) ∧
    (∀ k e, lookupC c k = some e →
        (endsWithS k "_default" = true ∨ now - e.lastUsed ≤ CACHE_TTL) →
        lookupC (cleanupOldConnections c now).1 k = some e) ∧
    (∀ e, lookupC c (keyOf dbType (some d)) = some e →
        endsWithS (keyOf dbType (some d)) "_default" = false →
        CACHE_TTL < now - e.lastUsed →
        (getDataSource ⟨(cleanupOldConnections c now).1, n⟩ now2 dbType (some d) true).1 =
          AcquireResult.created n ∧
        (getDataSource ⟨(cleanupOldConnections c now).1, n⟩ now2 dbType (some d) true).2.nextHandle =
          n + 1) := by
  have hev : ∀ k e, lookupC c k = some e → endsWithS k "_default" = false →
      CACHE_TTL < now - e.lastUsed → k ∈ idleKeys c now := by
    intro k e hl hb hidle
    exact List.mem_map.mpr ⟨(k, e),
      List.mem_filter.mpr ⟨mem_of_lookupC hl, by simp [hb, hidle]⟩, rfl⟩
  refine ⟨?_, ?_, ?_⟩
  · intro k e hl hb hidle
    exact ⟨removeKeys_lookup_mem_none hclose (hev k e hl hb hidle), hev k e hl hb hidle⟩
  · intro k e hl hkeep
    have hnotin : k ∉ idleKeys c now := by
      intro hk
      obtain ⟨p, hp, hpk⟩ := List.mem_map.mp hk
      have hpin := (List.mem_filter.mp hp).1
      have hpred := (List.mem_filter.mp hp).2
      have hlp : lookupC c p.1 = some p.2 :=
        lookup_of_mem_nodup hnd (by rw [Prod.mk.eta]; exact hpin)
      rw [hpk, hl] at hlp
      have hpe : p.2 = e := Option.some.inj hlp.symm
      rw [hpk, hpe] at hpred
      rcases hkeep with hb | hfresh
      · simp [hb] at hpred
      · simp at hpred
        omega
    exact (removeKeys_lookup_not_mem hnotin).trans hl
  · intro e hl hb hidle
    have hnone : lookupC (cleanupOldConnections c now).1 (keyOf dbType (some d)) = none :=
      removeKeys_lookup_mem_none hclose (hev _ e hl hb hidle)
    rw [getDataSource_miss_create ⟨(cleanupOldConnections c now).1, n⟩ now2 dbType d hnone
      hlow hd]
    exact ⟨rfl, rfl⟩

/-- Witness for C2: entry `postgres_a` idle for 700000 ms (> TTL 600000) is
removed, `postgres_b` used 500000 ms ago and the base entry are retained,
and re-acquiring `a` provisions fresh physical connection 4. -/
theorem c2_evictIdle_removes_exactly_idle_witness :
    lookupC (cleanupOldConnections
        [("postgres_default", ⟨0, 0, 0, 1, 0, false⟩), ("postgres_a", ⟨1, 0, 0, 1, 0, false⟩),
          ("postgres_b", ⟨2, 0, 200000, 1, 0, false⟩)] 700000).1 "postgres_a" = none ∧
    "postgres_a" ∈ (cleanupOldConnections
        [("postgres_default", ⟨0, 0, 0, 1, 0, false⟩), ("postgres_a", ⟨1, 0, 0, 1, 0, false⟩),
          ("postgres_b", ⟨2, 0, 200000, 1, 0, false⟩)] 700000).2 ∧
    lookupC (cleanupOldConnections
        [("postgres_default", ⟨0, 0, 0, 1, 0, false⟩), ("postgres_a", ⟨1, 0, 0, 1, 0, false⟩),
          ("postgres_b", ⟨2, 0, 200000, 1, 0, false⟩)] 700000).1 "postgres_b" =
      some ⟨2, 0, 200000, 1, 0, false⟩ ∧
    lookupC (cleanupOldConnections
        [("postgres_default", ⟨0, 0, 0, 1, 0, false⟩), ("postgres_a", ⟨1, 0, 0, 1, 0, false⟩),
          ("postgres_b", ⟨2, 0, 200000, 1, 0, false⟩)] 700000).1 "postgres_default" =
      some ⟨0, 0, 0, 1, 0, false⟩ ∧
    (getDataSource ⟨(cleanupOldConnections
        [("postgres_default", ⟨0, 0, 0, 1, 0, false⟩), ("postgres_a", ⟨1, 0, 0, 1, 0, false⟩),
          ("postgres_b", ⟨2, 0, 200000, 1, 0, false⟩)] 700000).1, 4⟩ 800000
        "postgres" (some "a") true).1 = AcquireResult.created 4 := by
  have T := c2_evictIdle_removes_exactly_idle
    [("postgres_default", ⟨0, 0, 0, 1, 0, false⟩), ("postgres_a", ⟨1, 0, 0, 1, 0, false⟩),
      ("postgres_b", ⟨2, 0, 200000, 1, 0, false⟩)] 700000 800000 4 "postgres" "a"
    (by decide) (by decide) (by decide) (by decide)
  refine ⟨(T.1 "postgres_a" ⟨1, 0, 0, 1, 0, false⟩ (by decide) (by decide) (by decide)).1,
    (T.1 "postgres_a" ⟨1, 0, 0, 1, 0, false⟩ (by decide) (by decide) (by decide)).2,
    T.2.1 "postgres_b" ⟨2, 0, 200000, 1, 0, false⟩ (by decide) (Or.inr (by decide)),
    T.2.1 "postgres_default" ⟨0, 0, 0, 1, 0, false⟩ (by decide) (Or.inl (by decide)),
    (T.2.2 ⟨1, 0, 0, 1, 0, false⟩ (by decide) (by decide) (by decide)).1⟩

/-- C1 counterexample: with the cache holding exactly `MAX_CACHE_SIZE` (20)
non-base entries, acquiring a 21st distinct non-base key evicts nothing —
the least-recently-used entry `postgres_d01` is still present afterwards
and the cache has 21 entries, refuting both "enforcement evicts when the
size already equals the bound" and "strictly under the bound after the
pending insertion" (and hence the N+1-distinct-keys scenario). -/
theorem c1_no_eviction_at_exact_capacity :
    lookupC (getDataSource
        ⟨[("postgres_d01", ⟨1, 1, 1, 1, 0, false⟩),
      ("postgres_d02", ⟨2, 2, 2, 1, 0, false⟩),
      ("postgres_d03", ⟨3, 3, 3, 1, 0, false⟩),
      ("postgres_d04", ⟨4, 4, 4, 1, 0, false⟩),
      ("postgres_d05", ⟨5, 5, 5, 1, 0, false⟩),
      ("postgres_d06", ⟨6, 6, 6, 1, 0, false⟩),
      ("postgres_d07", ⟨7, 7, 7, 1, 0, false⟩),
      ("postgres_d08", ⟨8, 8, 8, 1, 0, false⟩),
      ("postgres_d09", ⟨9, 9, 9, 1, 0, false⟩),
      ("postgres_d10", ⟨10, 10, 10, 1, 0, false⟩),
      ("postgres_d11", ⟨11, 11, 11, 1, 0, false⟩),
      ("postgres_d12", ⟨12, 12, 12, 1, 0, false⟩),
      ("postgres_d13", ⟨13, 13, 13, 1, 0, false⟩),
      ("postgres_d14", ⟨14, 14, 14, 1, 0, false⟩),
      ("postgres_d15", ⟨15, 15, 15, 1, 0, false⟩),
      ("postgres_d16", ⟨16, 16, 16, 1, 0, false⟩),
      ("postgres_d17", ⟨17, 17, 17, 1, 0, false⟩),
      ("postgres_d18", ⟨18, 18, 18, 1, 0, false⟩),
      ("postgres_d19", ⟨19, 19, 19, 1, 0, false⟩),
      ("postgres_d20", ⟨20, 20, 20, 1, 0, false⟩)], 100⟩ 999 "postgres" (some "d21") true).2.cache "postgres_d01" =
      some ⟨1, 1, 1, 1, 0, false⟩ ∧
    (getDataSource
        ⟨[("postgres_d01", ⟨1, 1, 1, 1, 0, false⟩),
      ("postgres_d02", ⟨2, 2, 2, 1, 0, false⟩),
      ("postgres_d03", ⟨3, 3, 3, 1, 0, false⟩),
      ("postgres_d04", ⟨4, 4, 4, 1, 0, false⟩),
      ("postgres_d05", ⟨5, 5, 5, 1, 0, false⟩),
      ("postgres_d06", ⟨6, 6, 6, 1, 0, false⟩),
      ("postgres_d07", ⟨7, 7, 7, 1, 0, false⟩),
      ("postgres_d08", ⟨8, 8, 8, 1, 0, false⟩),
      ("postgres_d09", ⟨9, 9, 9, 1, 0, false⟩),
      ("postgres_d10", ⟨10, 10, 10, 1, 0, false⟩),
      ("postgres_d11", ⟨11, 11, 11, 1, 0, false⟩),
      ("postgres_d12", ⟨12, 12, 12, 1, 0, false⟩),
      ("postgres_d13", ⟨13, 13, 13, 1, 0, false⟩),
      ("postgres_d14", ⟨14, 14, 14, 1, 0, false⟩),
      ("postgres_d15", ⟨15, 15, 15, 1, 0, false⟩),
      ("postgres_d16", ⟨16, 16, 16, 1, 0, false⟩),
      ("postgres_d17", ⟨17, 17, 17, 1, 0, false⟩),
      ("postgres_d18", ⟨18, 18, 18, 1, 0, false⟩),
      ("postgres_d19", ⟨19, 19, 19, 1, 0, false⟩),
      ("postgres_d20", ⟨20, 20, 20, 1, 0, false⟩)], 100⟩ 999 "postgres" (some "d21") true).2.cache.length =
      MAX_CACHE_SIZE + 1 := by
  decide

/-- C1 (amended): capacity enforcement runs before the insertion but evicts
only when the cache size strictly exceeds `MAX_CACHE_SIZE`: at any size up
to the bound the new entry is simply appended (so `N+1` distinct non-base
acquisitions evict nothing and leave `N+1` entries); when the size is
`MAX_CACHE_SIZE + 1` and all entries are non-base with succeeding closes,
enforcement removes exactly the entry with the strictly smallest
`lastUsed` — the least-recently-used one — closing it before removal. -/
theorem c1_capacity_eviction_amended :
    (∀ (st : SvcState) (now : Nat) (dbType d : String),
        lookupC st.cache (keyOf dbType (some d)) = none →
        toLowerS dbType = "postgres" → d ≠ "" →
        st.cache.length ≤ MAX_CACHE_SIZE →
        getDataSource st now dbType (some d) true =
          (AcquireResult.created st.nextHandle,
            ⟨setEntry st.cache (keyOf dbType (some d)) (mkFreshEntry st.nextHandle now),
              st.nextHandle + 1⟩)) ∧
    (∀ (c : Cache) (k₀ : String) (e₀ : Entry),
        c.length = MAX_CACHE_SIZE + 1 →
        (∀ p ∈ c, endsWithS p.1 "_default" = false) →
        (c.map Prod.fst).Nodup →
        (∀ p ∈ c, p.2.closeFails = false) →
        (k₀, e₀) ∈ c →
        (∀ p ∈ c, p.1 ≠ k₀ → e₀.lastUsed < p.2.lastUsed) →
        enforceMaxCacheSize c = eraseKey c k₀) := by
  constructor
  · intro st now dbType d hmiss hlow hd hlen
    rw [getDataSource_miss_create st now dbType d hmiss hlow hd, enforce_eq_of_le hlen]
  · intro c k₀ e₀ hlen hnb hnd hclose hmem hmin
    unfold enforceMaxCacheSize
    rw [if_neg (by rw [hlen]; omega)]
    have hfil : c.filter (fun p => !(endsWithS p.1 "_default")) = c :=
      List.filter_eq_self.mpr (fun p hp => by simp [hnb p hp])
    have hne : c ≠ [] := by
      intro h
      rw [h] at hlen
      simp [MAX_CACHE_SIZE] at hlen
    obtain ⟨y, ys, hs, hy, hminy⟩ := sortLU_min hne
    rw [hfil, hs, hlen]
    have ht : MAX_CACHE_SIZE + 1 - MAX_CACHE_SIZE = 1 := by omega
    rw [ht]
    simp only [List.map_cons, List.take_succ_cons, List.take_zero]
    have hy1 : y.1 = k₀ := by
      by_contra hne2
      have h1 := hmin y hy hne2
      have h2 : y.2.lastUsed ≤ e₀.lastUsed := hminy (k₀, e₀) hmem
      omega
    have hl2 : lookupC c k₀ = some e₀ := lookup_of_mem_nodup hnd hmem
    show removeKeys c [y.1] = eraseKey c k₀
    unfold removeKeys
    simp only [List.foldl]
    unfold destroyAndRemove
    rw [hy1, hl2]
    have hcf : e₀.closeFails = false := hclose (k₀, e₀) hmem
    simp [destroyHandle, hcf]

/-- Witness for C1 (amended): an empty-cache acquire simply inserts, and a
21-entry all-non-base cache has its strictly least-recently-used entry
`postgres_e01` (and only it) evicted by enforcement. -/
theorem c1_capacity_eviction_amended_witness :
    getDataSource ⟨[], 0⟩ 7 "postgres" (some "t") true =
      (AcquireResult.created 0,
        ⟨setEntry [] (keyOf "postgres" (some "t")) (mkFreshEntry 0 7), 1⟩) ∧
    enforceMaxCacheSize
        [("postgres_e01", ⟨41, 41, 41, 1, 0, false⟩),
      ("postgres_e02", ⟨42, 42, 42, 1, 0, false⟩),
      ("postgres_e03", ⟨43, 43, 43, 1, 0, false⟩),
      ("postgres_e04", ⟨44, 44, 44, 1, 0, false⟩),
      ("postgres_e05", ⟨45, 45, 45, 1, 0, false⟩),
      ("postgres_e06", ⟨46, 46, 46, 1, 0, false⟩),
      ("postgres_e07", ⟨47, 47, 47, 1, 0, false⟩),
      ("postgres_e08", ⟨48, 48, 48, 1, 0, false⟩),
      ("postgres_e09", ⟨49, 49, 49, 1, 0, false⟩),
      ("postgres_e10", ⟨50, 50, 50, 1, 0, false⟩),
      ("postgres_e11", ⟨51, 51, 51, 1, 0, false⟩),
      ("postgres_e12", ⟨52, 52, 52, 1, 0, false⟩),
      ("postgres_e13", ⟨53, 53, 53, 1, 0, false⟩),
      ("postgres_e14", ⟨54, 54, 54, 1, 0, false⟩),
      ("postgres_e15", ⟨55, 55, 55, 1, 0, false⟩),
      ("postgres_e16", ⟨56, 56, 56, 1, 0, false⟩),
      ("postgres_e17", ⟨57, 57, 57, 1, 0, false⟩),
      ("postgres_e18", ⟨58, 58, 58, 1, 0, false⟩),
      ("postgres_e19", ⟨59, 59, 59, 1, 0, false⟩),
      ("postgres_e20", ⟨60, 60, 60, 1, 0, false⟩),
      ("postgres_e21", ⟨61, 61, 61, 1, 0, false⟩)] =
      eraseKey
        [("postgres_e01", ⟨41, 41, 41, 1, 0, false⟩),
      ("postgres_e02", ⟨42, 42, 42, 1, 0, false⟩),
      ("postgres_e03", ⟨43, 43, 43, 1, 0, false⟩),
      ("postgres_e04", ⟨44, 44, 44, 1, 0, false⟩),
      ("postgres_e05", ⟨45, 45, 45, 1, 0, false⟩),
      ("postgres_e06", ⟨46, 46, 46, 1, 0, false⟩),
      ("postgres_e07", ⟨47, 47, 47, 1, 0, false⟩),
      ("postgres_e08", ⟨48, 48, 48, 1, 0, false⟩),
      ("postgres_e09", ⟨49, 49, 49, 1, 0, false⟩),
      ("postgres_e10", ⟨50, 50, 50, 1, 0, false⟩),
      ("postgres_e11", ⟨51, 51, 51, 1, 0, false⟩),
      ("postgres_e12", ⟨52, 52, 52, 1, 0, false⟩),
      ("postgres_e13", ⟨53, 53, 53, 1, 0, false⟩),
      ("postgres_e14", ⟨54, 54, 54, 1, 0, false⟩),
      ("postgres_e15", ⟨55, 55, 55, 1, 0, false⟩),
      ("postgres_e16", ⟨56, 56, 56, 1, 0, false⟩),
      ("postgres_e17", ⟨57, 57, 57, 1, 0, false⟩),
      ("postgres_e18", ⟨58, 58, 58, 1, 0, false⟩),
      ("postgres_e19", ⟨59, 59, 59, 1, 0, false⟩),
      ("postgres_e20", ⟨60, 60, 60, 1, 0, false⟩),
      ("postgres_e21", ⟨61, 61, 61, 1, 0, false⟩)] "postgres_e01" :=
  ⟨c1_capacity_eviction_amended.1 ⟨[], 0⟩ 7 "postgres" "t" (by decide) (by decide)
      (by decide) (by decide),
    c1_capacity_eviction_amended.2
      [("postgres_e01", ⟨41, 41, 41, 1, 0, false⟩),
      ("postgres_e02", ⟨42, 42, 42, 1, 0, false⟩),
      ("postgres_e03", ⟨43, 43, 43, 1, 0, false⟩),
      ("postgres_e04", ⟨44, 44, 44, 1, 0, false⟩),
      ("postgres_e05", ⟨45, 45, 45, 1, 0, false⟩),
      ("postgres_e06", ⟨46, 46, 46, 1, 0, false⟩),
      ("postgres_e07", ⟨47, 47, 47, 1, 0, false⟩),
      ("postgres_e08", ⟨48, 48, 48, 1, 0, false⟩),
      ("postgres_e09", ⟨49, 49, 49, 1, 0, false⟩),
      ("postgres_e10", ⟨50, 50, 50, 1, 0, false⟩),
      ("postgres_e11", ⟨51, 51, 51, 1, 0, false⟩),
      ("postgres_e12", ⟨52, 52, 52, 1, 0, false⟩),
      ("postgres_e13", ⟨53, 53, 53, 1, 0, false⟩),
      ("postgres_e14", ⟨54, 54, 54, 1, 0, false⟩),
      ("postgres_e15", ⟨55, 55, 55, 1, 0, false⟩),
      ("postgres_e16", ⟨56, 56, 56, 1, 0, false⟩),
      ("postgres_e17", ⟨57, 57, 57, 1, 0, false⟩),
      ("postgres_e18", ⟨58, 58, 58, 1, 0, false⟩),
      ("postgres_e19", ⟨59, 59, 59, 1, 0, false⟩),
      ("postgres_e20", ⟨60, 60, 60, 1, 0, false⟩),
      ("postgres_e21", ⟨61, 61, 61, 1, 0, false⟩)]
      "postgres_e01" ⟨41, 41, 41, 1, 0, false⟩ (by decide) (by decide) (by decide)
      (by decide) (by decide) (by decide)⟩

/-- C9 counterexample: two concurrent `getDataSource` calls on the same
never-seen key, interleaved so both observe the miss before either inserts
(check₁, check₂, insert₁, insert₂), each initialize an independent physical
connection: two connections are created, the callers hold distinct handles,
and the second insertion has overwritten the first entry. -/
theorem c9_concurrent_misses_create_two_connections :
    (concRun "postgres_t1" 5 [true, false, true, false] (concInit [] 0)).nextHandle = 2 ∧
    (concRun "postgres_t1" 5 [true, false, true, false] (concInit [] 0)).res1 =
      some (AcquireResult.created 0) ∧
    (concRun "postgres_t1" 5 [true, false, true, false] (concInit [] 0)).res2 =
      some (AcquireResult.created 1) ∧
    lookupC (concRun "postgres_t1" 5 [true, false, true, false] (concInit [] 0)).cache
      "postgres_t1" = some (mkFreshEntry 1 5) := by
  decide

/-- C9 (amended): per-key uniqueness holds only for non-overlapping calls —
when the first call completes before the second starts, exactly one
physical connection is created and the second caller hits the first's
entry; overlapping misses on the same key are not serialized and each
create their own connection. -/
theorem c9_sequential_acquires_share_connection (c : Cache) (n now : Nat) (key : String)
    (hmiss : lookupC c key = none) :
    (concRun key now [true, true, false, false] (concInit c n)).nextHandle = n + 1 ∧
    (concRun key now [true, true, false, false] (concInit c n)).res1 =
      some (AcquireResult.created n) ∧
    (concRun key now [true, true, false, false] (concInit c n)).res2 =
      some (AcquireResult.hit n) := by
  have h1 : concStep key now (concInit c n) true =
      { concInit c n with pc1 := PC.missed } := by
    simp [concStep, phase1, concInit, hmiss]
  have h2 : concStep key now { concInit c n with pc1 := PC.missed } true =
      { cache := setEntry (enforceMaxCacheSize c) key (mkFreshEntry n now)
        nextHandle := n + 1, pc1 := PC.done, pc2 := PC.start
        res1 := some (AcquireResult.created n), res2 := none } := by
    simp [concStep, phase1, concInit]
  have h3 : concStep key now
      { cache := setEntry (enforceMaxCacheSize c) key (mkFreshEntry n now)
        nextHandle := n + 1, pc1 := PC.done, pc2 := PC.start
        res1 := some (AcquireResult.created n), res2 := none } false =
      { cache := setEntry (setEntry (enforceMaxCacheSize c) key (mkFreshEntry n now)) key
          (touch (mkFreshEntry n now) now)
        nextHandle := n + 1, pc1 := PC.done, pc2 := PC.done
        res1 := some (AcquireResult.created n)
        res2 := some (AcquireResult.hit n) } := by
    simp [concStep, phase2, lookup_setEntry_self, mkFreshEntry]
  have h4 : concStep key now
      { cache := setEntry (setEntry (enforceMaxCacheSize c) key (mkFreshEntry n now)) key
          (touch (mkFreshEntry n now) now)
        nextHandle := n + 1, pc1 := PC.done, pc2 := PC.done
        res1 := some (AcquireResult.created n)
        res2 := some (AcquireResult.hit n) } false =
      { cache := setEntry (setEntry (enforceMaxCacheSize c) key (mkFreshEntry n now)) key
          (touch (mkFreshEntry n now) now)
        nextHandle := n + 1, pc1 := PC.done, pc2 := PC.done
        res1 := some (AcquireResult.created n)
        res2 := some (AcquireResult.hit n) } := by
    simp [concStep, phase2]
  have hrun : concRun key now [true, true, false, false] (concInit c n) =
      { cache := setEntry (setEntry (enforceMaxCacheSize c) key (mkFreshEntry n now)) key
          (touch (mkFreshEntry n now) now)
        nextHandle := n + 1, pc1 := PC.done, pc2 := PC.done
        res1 := some (AcquireResult.created n)
        res2 := some (AcquireResult.hit n) } := by
    unfold concRun
    simp only [List.foldl]
    rw [h1, h2, h3, h4]
  rw [hrun]
  exact ⟨rfl, rfl, rfl⟩

/-- Witness for C9 (amended): sequential acquires of `postgres_w` on an
empty cache create exactly one physical connection; the second caller hits
handle 0. -/
theorem c9_sequential_acquires_share_connection_witness :
    (concRun "postgres_w" 9 [true, true, false, false] (concInit [] 0)).nextHandle = 0 + 1 ∧
    (concRun "postgres_w" 9 [true, true, false, false] (concInit [] 0)).res1 =
      some (AcquireResult.created 0) ∧
    (concRun "postgres_w" 9 [true, true, false, false] (concInit [] 0)).res2 =
      some (AcquireResult.hit 0) :=
  c9_sequential_acquires_share_connection [] 0 9 "postgres_w" (by decide)

end DbResolver
